import Mathlib

/-!
Verification of the cloud-functions workspace service.

The development embeds the Python sources shallowly in Lean:

* `libs/core/core/text.py` and `libs/core/core/models.py` — the word-count
  utility over `TextDocument`, with Python `str.strip()` / `str.split()`
  modelled on `List Char`;
* `libs/api/api/routes/hello.py`, `libs/api/api/routes/documents.py`,
  `libs/api/api/main.py` — the route handlers, the pydantic field
  constraints, and the global exception handlers, together with the
  framework dispatch (validation before handler, exception translation);
* `services/api-function/main.py` — the serverless adapter translating a
  platform request into an in-process call and the response back into the
  platform tuple.

Python strings are modelled as `List Char`; machine-level details (bytes
vs str) are identified with character lists.
-/

/-! ## Python string primitives (model of CPython `str.strip`/`str.split`) -/

/-- Whitespace as recognised by Python `str.strip()` / `str.split()`
(ASCII fragment: space, tab, newline, carriage return, vertical tab,
form feed). -/
def pyIsSpace (c : Char) : Bool :=
  c == ' ' || c == '\t' || c == '\n' || c == '\r' || c == '\x0b' || c == '\x0c'

/-- Python `str.lstrip()`. -/
def pyLStrip (s : List Char) : List Char := s.dropWhile pyIsSpace

/-- Python `str.rstrip()`. -/
def pyRStrip (s : List Char) : List Char := (s.reverse.dropWhile pyIsSpace).reverse

/-- Python `str.strip()`. -/
def pyStrip (s : List Char) : List Char := pyRStrip (pyLStrip s)

/-- Worker for `pySplit`: `acc` holds the characters of the token in
progress, in reverse. -/
def splitAux : List Char → List Char → List (List Char)
  | [], acc => if acc.isEmpty then [] else [acc.reverse]
  | c :: cs, acc =>
    if pyIsSpace c then
      if acc.isEmpty then splitAux cs [] else acc.reverse :: splitAux cs []
    else
      splitAux cs (c :: acc)

/-- Python `str.split()` with no separator: splits on runs of whitespace
and never produces empty tokens. -/
def pySplit (s : List Char) : List (List Char) := splitAux s []

/-! ## `libs/core/core/models.py` and `libs/core/core/text.py` -/

/-- `TextDocument` from `core/models.py`: a single required string field. -/
structure TextDocument where
  text : List Char
deriving DecidableEq, Repr

/-- `get_word_count` from `core/text.py`:
`if not document.text.strip(): return 0` then
`return len(document.text.split())`. -/
def get_word_count (document : TextDocument) : Nat :=
  if (pyStrip document.text).isEmpty then 0
  else (pySplit document.text).length

/-- Modelled from the spec: the guard-free word count
`len(document.text.split())`, the candidate the implicit refinement claim
compares `get_word_count` against. -/
def get_word_count_unguarded (document : TextDocument) : Nat :=
  (pySplit document.text).length

/-! ## Lemmas about `pySplit` and `pyStrip` -/

theorem splitAux_all_space (ws : List Char) (acc : List Char)
    (h : ∀ c ∈ ws, pyIsSpace c = true) :
    splitAux ws acc = if acc.isEmpty then [] else [acc.reverse] := by
  induction ws generalizing acc with
  | nil => rfl
  | cons c cs ih =>
    have hc : pyIsSpace c = true := h c (List.mem_cons_self _ _)
    have hcs : ∀ x ∈ cs, pyIsSpace x = true := fun x hx => h x (List.mem_cons_of_mem _ hx)
    by_cases hacc : acc.isEmpty
    · simp [splitAux, hc, hacc, ih [] hcs]
    · simp [splitAux, hc, hacc, ih [] hcs]

theorem splitAux_space_leading (ws b : List Char)
    (h : ∀ c ∈ ws, pyIsSpace c = true) :
    splitAux (ws ++ b) [] = splitAux b [] := by
  induction ws with
  | nil => rfl
  | cons c cs ih =>
    have hc : pyIsSpace c = true := h c (List.mem_cons_self _ _)
    have hcs : ∀ x ∈ cs, pyIsSpace x = true := fun x hx => h x (List.mem_cons_of_mem _ hx)
    simp [splitAux, hc, ih hcs]

theorem splitAux_space_suffix (a ws : List Char) (acc : List Char)
    (h : ∀ c ∈ ws, pyIsSpace c = true) :
    splitAux (a ++ ws) acc = splitAux a acc := by
  induction a generalizing acc with
  | nil =>
    simpa [splitAux] using splitAux_all_space ws acc h
  | cons c cs ih =>
    by_cases hc : pyIsSpace c
    · by_cases hacc : acc.isEmpty
      · simp [splitAux, hc, hacc, ih []]
      · simp [splitAux, hc, hacc, ih []]
    · simp [splitAux, hc, ih (c :: acc)]

theorem splitAux_append_space (a b : List Char) (c : Char) (acc : List Char)
    (hc : pyIsSpace c = true) :
    splitAux (a ++ c :: b) acc = splitAux a acc ++ splitAux b [] := by
  induction a generalizing acc with
  | nil =>
    by_cases hacc : acc.isEmpty
    · simp [splitAux, hc, hacc]
    · simp [splitAux, hc, hacc]
  | cons x xs ih =>
    by_cases hx : pyIsSpace x
    · by_cases hacc : acc.isEmpty
      · simp [splitAux, hx, hacc, ih []]
      · simp [splitAux, hx, hacc, ih []]
    · simp [splitAux, hx, ih (x :: acc)]

theorem splitAux_space_run (u b : List Char) (acc : List Char)
    (hu : u ≠ []) (h : ∀ c ∈ u, pyIsSpace c = true) :
    splitAux (u ++ b) acc =
      (if acc.isEmpty then [] else [acc.reverse]) ++ splitAux b [] := by
  induction u generalizing acc with
  | nil => exact absurd rfl hu
  | cons c cs ih =>
    have hc : pyIsSpace c = true := h c (List.mem_cons_self _ _)
    have hcs : ∀ x ∈ cs, pyIsSpace x = true := fun x hx => h x (List.mem_cons_of_mem _ hx)
    rcases List.eq_nil_or_concat cs with hnil | _
    · subst hnil
      by_cases hacc : acc.isEmpty
      · simp [splitAux, hc, hacc]
      · simp [splitAux, hc, hacc]
    · have hcs' : cs ≠ [] := by
        rename_i hex
        rcases hex with ⟨l, a, rfl⟩
        simp
      by_cases hacc : acc.isEmpty
      · simp [splitAux, hc, hacc, ih [] hcs' hcs]
      · simp [splitAux, hc, hacc, ih [] hcs' hcs]

theorem splitAux_replace_space_run (a u v b : List Char) (acc : List Char)
    (hu : u ≠ []) (hv : v ≠ [])
    (hus : ∀ c ∈ u, pyIsSpace c = true) (hvs : ∀ c ∈ v, pyIsSpace c = true) :
    splitAux (a ++ (u ++ b)) acc = splitAux (a ++ (v ++ b)) acc := by
  induction a generalizing acc with
  | nil =>
    simp only [List.nil_append]
    rw [splitAux_space_run u b acc hu hus, splitAux_space_run v b acc hv hvs]
  | cons c cs ih =>
    by_cases hc : pyIsSpace c
    · by_cases hacc : acc.isEmpty
      · simp [splitAux, hc, hacc, ih []]
      · simp [splitAux, hc, hacc, ih []]
    · simp [splitAux, hc, ih (c :: acc)]

theorem pyStrip_eq_nil_iff (s : List Char) :
    pyStrip s = [] ↔ ∀ c ∈ s, pyIsSpace c = true := by
  constructor
  · intro h c hc
    have hl : ∀ x ∈ pyLStrip s, pyIsSpace x = true := by
      intro x hx
      have : (pyLStrip s).reverse.dropWhile pyIsSpace = [] := by
        have := congrArg List.reverse h
        simpa [pyStrip, pyRStrip] using this
      have hall := (List.dropWhile_eq_nil_iff).mp this
      exact hall x (by simpa using hx)
    have hsplit : s.takeWhile pyIsSpace ++ s.dropWhile pyIsSpace = s :=
      List.takeWhile_append_dropWhile pyIsSpace s
    have hc2 : c ∈ s.takeWhile pyIsSpace ++ s.dropWhile pyIsSpace := by
      rw [hsplit]; exact hc
    rcases List.mem_append.mp hc2 with hc' | hc'
    · exact List.mem_takeWhile_imp hc'
    · exact hl c hc'
  · intro h
    have hl : pyLStrip s = [] := List.dropWhile_eq_nil_iff.mpr h
    rw [pyStrip, hl]
    rfl

theorem pySplit_of_all_space (s : List Char)
    (h : ∀ c ∈ s, pyIsSpace c = true) : pySplit s = [] := by
  simpa [pySplit] using splitAux_all_space s [] h

theorem pySplit_pyLStrip (s : List Char) : pySplit (pyLStrip s) = pySplit s := by
  conv_rhs => rw [← List.takeWhile_append_dropWhile pyIsSpace s]
  unfold pySplit pyLStrip
  rw [splitAux_space_leading]
  intro c hc
  exact List.mem_takeWhile_imp hc

theorem pySplit_pyRStrip (s : List Char) : pySplit (pyRStrip s) = pySplit s := by
  have hdecomp : s = pyRStrip s ++ (s.reverse.takeWhile pyIsSpace).reverse := by
    have h1 : s.reverse.takeWhile pyIsSpace ++ s.reverse.dropWhile pyIsSpace = s.reverse :=
      List.takeWhile_append_dropWhile pyIsSpace s.reverse
    have h2 : (s.reverse.dropWhile pyIsSpace).reverse ++
        (s.reverse.takeWhile pyIsSpace).reverse = s := by
      have h3 := congrArg List.reverse h1
      rwa [List.reverse_append, List.reverse_reverse] at h3
    rw [pyRStrip]
    exact h2.symm
  conv_rhs => rw [hdecomp]
  unfold pySplit
  rw [splitAux_space_suffix]
  intro c hc
  exact List.mem_takeWhile_imp (by simpa using hc)

theorem pySplit_pyStrip (s : List Char) : pySplit (pyStrip s) = pySplit s := by
  unfold pyStrip
  rw [pySplit_pyRStrip, pySplit_pyLStrip]

/-- Shared bridge: the guard in `get_word_count` is invisible in the
result, the function always returns `len(text.split())`. -/
theorem get_word_count_eq_split_length (document : TextDocument) :
    get_word_count document = (pySplit document.text).length := by
  unfold get_word_count
  by_cases h : (pyStrip document.text).isEmpty
  · have hall : ∀ c ∈ document.text, pyIsSpace c = true :=
      (pyStrip_eq_nil_iff document.text).mp (List.isEmpty_iff.mp h)
    simp [h, pySplit_of_all_space document.text hall]
  · simp [h]

/-! ## Claim theorems about the word-count utility -/

/-- Claim C1: for every string, `get_word_count` returns 0 when the
string trimmed of leading/trailing whitespace is empty, and otherwise
returns the number of maximal whitespace-delimited tokens of the trimmed
string. -/
theorem get_word_count_spec (s : List Char) :
    get_word_count ⟨s⟩ =
      if pyStrip s = [] then 0 else (pySplit (pyStrip s)).length := by
  by_cases h : pyStrip s = []
  · simp [get_word_count, h]
  · rw [if_neg h, pySplit_pyStrip]
    have : ¬ (pyStrip s).isEmpty := by
      simpa [List.isEmpty_iff] using h
    simp [get_word_count, this]

/-- Claim C9: the whitespace-only guard in `get_word_count` is redundant:
the guarded implementation and the guard-free `len(split(text))` agree on
every `TextDocument`. -/
theorem get_word_count_eq_unguarded (document : TextDocument) :
    get_word_count document = get_word_count_unguarded document :=
  get_word_count_eq_split_length document

/-- Claim C10: word counting is a homomorphism from whitespace-separated
concatenation to addition: `wc(a + " " + b) = wc(a) + wc(b)`. -/
theorem get_word_count_concat (a b : List Char) :
    get_word_count ⟨a ++ " ".data ++ b⟩ =
      get_word_count ⟨a⟩ + get_word_count ⟨b⟩ := by
  rw [get_word_count_eq_split_length, get_word_count_eq_split_length,
    get_word_count_eq_split_length]
  have h : pyIsSpace ' ' = true := by decide
  show (pySplit (a ++ [' '] ++ b)).length = _
  rw [List.append_assoc]
  show (splitAux (a ++ ' ' :: b) []).length = _
  rw [splitAux_append_space a b ' ' [] h]
  simp [pySplit]

/-- Claim C8: inserting additional whitespace inside an existing
whitespace run (on either side of an existing whitespace character `c`)
leaves the word count unchanged. -/
theorem get_word_count_insert_space (a b ws : List Char) (c : Char)
    (hc : pyIsSpace c = true) (hws : ∀ x ∈ ws, pyIsSpace x = true) :
    get_word_count ⟨a ++ c :: (ws ++ b)⟩ = get_word_count ⟨a ++ c :: b⟩ ∧
    get_word_count ⟨a ++ (ws ++ c :: b)⟩ = get_word_count ⟨a ++ c :: b⟩ := by
  have hu1 : (c :: ws) ≠ [] := by simp
  have hv : [c] ≠ [] := by simp
  have hus1 : ∀ x ∈ (c :: ws), pyIsSpace x = true := by
    intro x hx
    rcases List.mem_cons.mp hx with h | h
    · subst h; exact hc
    · exact hws x h
  have hvs : ∀ x ∈ [c], pyIsSpace x = true := by
    intro x hx
    rcases List.mem_singleton.mp hx with h
    subst h; exact hc
  constructor
  · rw [get_word_count_eq_split_length, get_word_count_eq_split_length]
    have h1 := splitAux_replace_space_run a (c :: ws) [c] b [] hu1 hv hus1 hvs
    simp only [pySplit]
    have e1 : a ++ ((c :: ws) ++ b) = a ++ c :: (ws ++ b) := by simp
    have e2 : a ++ ([c] ++ b) = a ++ c :: b := by simp
    rw [e1, e2] at h1
    rw [h1]
  · rw [get_word_count_eq_split_length, get_word_count_eq_split_length]
    have hu2 : (ws ++ [c]) ≠ [] := by simp
    have hus2 : ∀ x ∈ (ws ++ [c]), pyIsSpace x = true := by
      intro x hx
      rcases List.mem_append.mp hx with h | h
      · exact hws x h
      · rcases List.mem_singleton.mp h with h'
        subst h'; exact hc
    have h2 := splitAux_replace_space_run a (ws ++ [c]) [c] b [] hu2 hv hus2 hvs
    simp only [pySplit]
    have e1 : a ++ ((ws ++ [c]) ++ b) = a ++ (ws ++ c :: b) := by simp
    have e2 : a ++ ([c] ++ b) = a ++ c :: b := by simp
    rw [e1, e2] at h2
    rw [h2]

/-- Witness for Claim C8 at concrete inputs: inserting a tab-space run
after the separating blank of `"foo bar"` keeps the count at 2. -/
theorem get_word_count_insert_space_witness :
    get_word_count ⟨"foo".data ++ ' ' :: (" \t".data ++ "bar".data)⟩ =
      get_word_count ⟨"foo".data ++ ' ' :: "bar".data⟩ ∧
    get_word_count ⟨"foo".data ++ ' ' :: "bar".data⟩ = 2 := by
  refine ⟨(get_word_count_insert_space "foo".data "bar".data " \t".data ' '
    (by decide) (by decide)).1, by decide⟩

/-! ## `libs/api/api`: schemas, route handlers and framework dispatch -/

/-- A JSON field value as far as the schema layer distinguishes them. -/
inductive FieldValue where
  | vstr (s : List Char)
  | vint (n : Int)
  | vnull
deriving DecidableEq, Repr

/-- A parsed JSON object body: association list of field name / value.
A missing field is simply absent from the list. -/
abbrev RawBody := List (List Char × FieldValue)

/-- One entry of the `errors` array of a 422 response: the failing field
together with its violation. -/
inductive ValidationErrorItem where
  | missing (f : List Char)
  | wrong_type (f : List Char)
  | too_short (f : List Char) (min_length : Nat)
  | too_long (f : List Char) (max_length : Nat)
deriving DecidableEq, Repr

/-- The field an error entry is about. -/
def ValidationErrorItem.field : ValidationErrorItem → List Char
  | .missing f => f
  | .wrong_type f => f
  | .too_short f _ => f
  | .too_long f _ => f

/-- Field lookup in a parsed JSON object. -/
def lookupField : RawBody → List Char → Option FieldValue
  | [], _ => none
  | (k, v) :: rest, name => if k = name then some v else lookupField rest name

/-- `HelloRequest` from `routes/hello.py`: `name` with
`min_length=1, max_length=100`. -/
structure HelloRequest where
  name : List Char
deriving DecidableEq, Repr

/-- `HelloResponse` from `routes/hello.py`. -/
structure HelloResponse where
  hello : List Char
deriving DecidableEq, Repr

/-- `HelloGetResponse` from `routes/hello.py`. -/
structure HelloGetResponse where
  text : List Char
deriving DecidableEq, Repr

/-- `WordCountRequest` from `routes/documents.py`: `text` with
`min_length=1`. -/
structure WordCountRequest where
  text : List Char
deriving DecidableEq, Repr

/-- `WordCountResponse` from `routes/documents.py`: a pydantic `int`
field. -/
structure WordCountResponse where
  word_count : Int
deriving DecidableEq, Repr

/-- `HealthResponse` from `main.py`. -/
structure HealthResponse where
  status : List Char
  version : List Char
deriving DecidableEq, Repr

/-- `fastapi.HTTPException` as raised by the hello handler. -/
structure HTTPException where
  status_code : Nat
  detail : List Char
deriving DecidableEq, Repr

/-- Modelled from the spec: pydantic validation of `HelloRequest`
(machinery external to the repo; the constraints `min_length=1,
max_length=100` are from `routes/hello.py`). Each failing field is
reported with its violation. -/
def validate_hello_request (body : RawBody) :
    Except (List ValidationErrorItem) HelloRequest :=
  match lookupField body "name".data with
  | none => .error [.missing "name".data]
  | some (.vstr s) =>
    if s.length < 1 then .error [.too_short "name".data 1]
    else if 100 < s.length then .error [.too_long "name".data 100]
    else .ok ⟨s⟩
  | some _ => .error [.wrong_type "name".data]

/-- Modelled from the spec: pydantic validation of `WordCountRequest`
(constraint `min_length=1` from `routes/documents.py`). -/
def validate_word_count_request (body : RawBody) :
    Except (List ValidationErrorItem) WordCountRequest :=
  match lookupField body "text".data with
  | none => .error [.missing "text".data]
  | some (.vstr s) =>
    if s.length < 1 then .error [.too_short "text".data 1]
    else .ok ⟨s⟩
  | some _ => .error [.wrong_type "text".data]

/-- `VERSION = "0.0.9"` from `main.py`. -/
def VERSION : List Char := "0.0.9".data

/-- `get_hello` from `routes/hello.py`. -/
def get_hello : HelloGetResponse := ⟨"Hello World!".data⟩

/-- `post_hello` from `routes/hello.py`: rejects a whitespace-only name
with a 400 `HTTPException`, otherwise echoes the untrimmed name. -/
def post_hello (request : HelloRequest) : Except HTTPException HelloResponse :=
  if (pyStrip request.name).isEmpty then
    .error ⟨400, "Name cannot be empty or whitespace".data⟩
  else .ok ⟨request.name⟩

/-- `count_words` from `routes/documents.py`: builds a `TextDocument`
and delegates to `get_word_count`. -/
def count_words (request : WordCountRequest) : WordCountResponse :=
  let document : TextDocument := ⟨request.text⟩
  ⟨(get_word_count document : Int)⟩

/-- `health_check` from `main.py`. -/
def health_check : HealthResponse := ⟨"healthy".data, VERSION⟩

/-- The body of an application-level HTTP response. -/
inductive ResponseBody where
  | hello_get (r : HelloGetResponse)
  | hello (r : HelloResponse)
  | word_count (r : WordCountResponse)
  | health (r : HealthResponse)
  | error_detail (detail : List Char)
  | validation_error (detail : List Char) (errors : List ValidationErrorItem)
deriving DecidableEq, Repr

/-- An application request as the router sees it. -/
structure AppRequest where
  method : List Char
  path : List Char
  body : RawBody

/-- An application response: status code and JSON body. -/
structure AppResponse where
  status_code : Nat
  body : ResponseBody
deriving DecidableEq, Repr

/-- `validation_exception_handler` from `main.py`: 422 with
`detail = "Validation error"` and the error list. -/
def validation_exception_handler (errors : List ValidationErrorItem) : AppResponse :=
  ⟨422, .validation_error "Validation error".data errors⟩

/-- `general_exception_handler` from `main.py`: 500 with
`detail = "Internal server error"`. -/
def general_exception_handler : AppResponse :=
  ⟨500, .error_detail "Internal server error".data⟩

/-- How FastAPI renders an `HTTPException` raised by a handler. -/
def http_exception_response (e : HTTPException) : AppResponse :=
  ⟨e.status_code, .error_detail e.detail⟩

/-- Modelled from the spec: the FastAPI dispatch configured in
`main.py` — routing by method and path, schema validation before any
handler logic, the registered exception handlers translating validation
errors to 422 and `HTTPException` to its status. The application holds
no state, so the dispatch is a pure function of the request. -/
def handle_request (req : AppRequest) : AppResponse :=
  if req.method = "GET".data ∧ req.path = "/hello".data then
    ⟨200, .hello_get get_hello⟩
  else if req.method = "POST".data ∧ req.path = "/hello".data then
    match validate_hello_request req.body with
    | .error errs => validation_exception_handler errs
    | .ok r =>
      match post_hello r with
      | .error e => http_exception_response e
      | .ok resp => ⟨200, .hello resp⟩
  else if req.method = "POST".data ∧ req.path = "/documents/word_count".data then
    match validate_word_count_request req.body with
    | .error errs => validation_exception_handler errs
    | .ok r => ⟨200, .word_count (count_words r)⟩
  else if req.method = "GET".data ∧ req.path = "/health".data then
    ⟨200, .health health_check⟩
  else
    ⟨404, .error_detail "Not Found".data⟩

theorem handle_request_post_hello (body : RawBody) :
    handle_request ⟨"POST".data, "/hello".data, body⟩ =
      (match validate_hello_request body with
       | .error errs => validation_exception_handler errs
       | .ok r =>
         match post_hello r with
         | .error e => http_exception_response e
         | .ok resp => ⟨200, .hello resp⟩) := rfl

theorem handle_request_post_word_count (body : RawBody) :
    handle_request ⟨"POST".data, "/documents/word_count".data, body⟩ =
      (match validate_word_count_request body with
       | .error errs => validation_exception_handler errs
       | .ok r => ⟨200, .word_count (count_words r)⟩) := rfl

/-! ## Claim theorems about the HTTP surface -/

/-- Claim C3: a request body that fails schema validation on either POST
endpoint yields HTTP 422 with body `detail = "Validation error"` and the
non-empty error list, each entry naming the failing field; the response
is produced by the validation translator alone, before any handler
logic. -/
theorem validation_failure_returns_422 :
    (∀ (body : RawBody) (errs : List ValidationErrorItem),
      validate_hello_request body = .error errs →
        handle_request ⟨"POST".data, "/hello".data, body⟩ =
          ⟨422, .validation_error "Validation error".data errs⟩ ∧
        errs ≠ [] ∧ ∀ e ∈ errs, e.field = "name".data) ∧
    (∀ (body : RawBody) (errs : List ValidationErrorItem),
      validate_word_count_request body = .error errs →
        handle_request ⟨"POST".data, "/documents/word_count".data, body⟩ =
          ⟨422, .validation_error "Validation error".data errs⟩ ∧
        errs ≠ [] ∧ ∀ e ∈ errs, e.field = "text".data) := by
  constructor
  · intro body errs h
    refine ⟨?_, ?_⟩
    · rw [handle_request_post_hello, h]
      rfl
    · unfold validate_hello_request at h
      rcases hlk : lookupField body "name".data with _ | fv
      · rw [hlk] at h
        cases h
        simp [ValidationErrorItem.field]
      · rw [hlk] at h
        cases fv with
        | vstr s =>
          simp only at h
          split at h
          · cases h
            simp [ValidationErrorItem.field]
          · split at h
            · cases h
              simp [ValidationErrorItem.field]
            · cases h
        | vint n =>
          cases h
          simp [ValidationErrorItem.field]
        | vnull =>
          cases h
          simp [ValidationErrorItem.field]
  · intro body errs h
    refine ⟨?_, ?_⟩
    · rw [handle_request_post_word_count, h]
      rfl
    · unfold validate_word_count_request at h
      rcases hlk : lookupField body "text".data with _ | fv
      · rw [hlk] at h
        cases h
        simp [ValidationErrorItem.field]
      · rw [hlk] at h
        cases fv with
        | vstr s =>
          simp only at h
          split at h
          · cases h
            simp [ValidationErrorItem.field]
          · cases h
        | vint n =>
          cases h
          simp [ValidationErrorItem.field]
        | vnull =>
          cases h
          simp [ValidationErrorItem.field]

/-- Witness for Claim C3: a body with the `name` field missing makes
`POST /hello` answer 422 with the validation body. -/
theorem validation_failure_returns_422_witness :
    handle_request ⟨"POST".data, "/hello".data, []⟩ =
      ⟨422, .validation_error "Validation error".data [.missing "name".data]⟩ :=
  (validation_failure_returns_422.1 [] [.missing "name".data] rfl).1

/-- Claim C4: for a schema-valid `name` (length 1–100), `POST /hello`
returns 400 `"Name cannot be empty or whitespace"` exactly when the name
is whitespace-only after trimming, and otherwise 200 echoing the
untrimmed name. -/
theorem post_hello_whitespace_iff (name : List Char)
    (hmin : 1 ≤ name.length) (hmax : name.length ≤ 100) :
    handle_request ⟨"POST".data, "/hello".data, [("name".data, .vstr name)]⟩ =
      if (pyStrip name).isEmpty then
        ⟨400, .error_detail "Name cannot be empty or whitespace".data⟩
      else ⟨200, .hello ⟨name⟩⟩ := by
  have hnot1 : ¬ (name.length < 1) := by omega
  have hnot2 : ¬ (100 < name.length) := by omega
  have hval : validate_hello_request [("name".data, .vstr name)] = .ok ⟨name⟩ := by
    simp [validate_hello_request, lookupField, hnot1, hnot2]
  rw [handle_request_post_hello, hval]
  by_cases hs : (pyStrip name).isEmpty
  · simp [post_hello, hs, http_exception_response]
  · simp [post_hello, hs]

/-- Witness for Claim C4: the schema-valid whitespace-only name `" "`
is rejected with 400. -/
theorem post_hello_whitespace_iff_witness :
    handle_request ⟨"POST".data, "/hello".data, [("name".data, .vstr " ".data)]⟩ =
      ⟨400, .error_detail "Name cannot be empty or whitespace".data⟩ := by
  have h := post_hello_whitespace_iff " ".data (by decide) (by decide)
  rw [h]
  decide

/-- Claim C5: `POST /documents/word_count` rejects the empty string at
the schema's minimum-length check with 422; any whitespace-only text of
length ≥ 1 passes validation and yields 200 with `word_count = 0`; and
every successful response carries `word_count = get_word_count(text)`,
an integer ≥ 0. -/
theorem word_count_endpoint_spec :
    (handle_request ⟨"POST".data, "/documents/word_count".data,
        [("text".data, .vstr "".data)]⟩ =
      ⟨422, .validation_error "Validation error".data [.too_short "text".data 1]⟩) ∧
    (∀ text : List Char, text ≠ [] → (∀ c ∈ text, pyIsSpace c = true) →
      handle_request ⟨"POST".data, "/documents/word_count".data,
          [("text".data, .vstr text)]⟩ =
        ⟨200, .word_count ⟨0⟩⟩) ∧
    (∀ text : List Char, 1 ≤ text.length →
      handle_request ⟨"POST".data, "/documents/word_count".data,
          [("text".data, .vstr text)]⟩ =
        ⟨200, .word_count ⟨(get_word_count ⟨text⟩ : Int)⟩⟩ ∧
      0 ≤ ((get_word_count ⟨text⟩ : Nat) : Int)) := by
  refine ⟨by decide, ?_, ?_⟩
  · intro text hne hsp
    have hlen : ¬ (text.length < 1) := by
      have := List.length_pos.mpr hne
      omega
    have hval : validate_word_count_request [("text".data, .vstr text)] = .ok ⟨text⟩ := by
      simp [validate_word_count_request, lookupField, hlen]
    have hwc : get_word_count ⟨text⟩ = 0 := by
      have hstrip : pyStrip text = [] := (pyStrip_eq_nil_iff text).mpr hsp
      simp [get_word_count, hstrip]
    rw [handle_request_post_word_count, hval]
    simp [count_words, hwc]
  · intro text hlen1
    have hlen : ¬ (text.length < 1) := by omega
    have hval : validate_word_count_request [("text".data, .vstr text)] = .ok ⟨text⟩ := by
      simp [validate_word_count_request, lookupField, hlen]
    refine ⟨?_, Int.ofNat_nonneg _⟩
    rw [handle_request_post_word_count, hval]
    rfl

/-- Witness for Claim C5: whitespace-only `"   "` gives 200 with count
0, and `"a b"` gives 200 with count 2. -/
theorem word_count_endpoint_spec_witness :
    handle_request ⟨"POST".data, "/documents/word_count".data,
        [("text".data, .vstr "   ".data)]⟩ =
      ⟨200, .word_count ⟨0⟩⟩ ∧
    handle_request ⟨"POST".data, "/documents/word_count".data,
        [("text".data, .vstr "a b".data)]⟩ =
      ⟨200, .word_count ⟨2⟩⟩ := by
  refine ⟨word_count_endpoint_spec.2.1 "   ".data (by decide) (by decide), ?_⟩
  have h := (word_count_endpoint_spec.2.2 "a b".data (by decide)).1
  rw [h]
  decide

/-- Claim C6: `GET /health` always returns 200 with
`status = "healthy"` and the service version constant, and `GET /hello`
always returns 200 with the fixed `"Hello World!"` body; the dispatch is
a pure function of the request, so prior request history cannot
influence either answer. -/
theorem health_and_hello_fixed (body : RawBody) :
    handle_request ⟨"GET".data, "/health".data, body⟩ =
      ⟨200, .health ⟨"healthy".data, VERSION⟩⟩ ∧
    handle_request ⟨"GET".data, "/hello".data, body⟩ =
      ⟨200, .hello_get ⟨"Hello World!".data⟩⟩ :=
  ⟨rfl, rfl⟩

/-! ## `services/api-function/main.py`: the serverless adapter -/

/-- The platform (Flask-style) request object a Cloud Function receives:
method, percent-decoded path, raw query string, headers and body. -/
structure PlatformRequest where
  method : List Char
  path : List Char
  query_string : List Char
  headers : List (List Char × List Char)
  body : Option (List Char)

/-- Flask `request.full_path`: the path, then `?`, then the raw query
string (the separator is present even when the query string is empty). -/
def full_path (r : PlatformRequest) : List Char := r.path ++ '?' :: r.query_string

/-- Python `str.rstrip("?")`: removes ALL trailing question marks. -/
def pyRStripQmark (s : List Char) : List Char :=
  (s.reverse.dropWhile (fun c => c == '?')).reverse

/-- The in-process request handed to the test client in `api_function`. -/
structure ClientRequest where
  method : List Char
  url : List Char
  headers : List (List Char × List Char)
  content : Option (List Char)
deriving DecidableEq, Repr

/-- The in-process client's response. -/
structure ClientResponse where
  content : List Char
  status_code : Nat
  headers : List (List Char × List Char)
deriving DecidableEq, Repr

/-- The argument translation done inside `api_function`:
`url=request.full_path.rstrip("?")`, headers and body forwarded. -/
def translate_request (r : PlatformRequest) : ClientRequest :=
  { method := r.method
    url := pyRStripQmark (full_path r)
    headers := r.headers
    content := r.body }

/-- `json.dumps({"detail": "Internal server error"}).encode()`. -/
def internal_error_body : List Char :=
  "\x7b\"detail\": \"Internal server error\"\x7d".data

/-- `api_function` from `services/api-function/main.py`, parametric in
the in-process dispatch (the `TestClient` call, which may raise an
exception of some type `ε`): on success the response is forwarded as the
platform tuple, on any exception the fixed 500 tuple is returned. -/
def api_function {ε : Type} (dispatch : ClientRequest → Except ε ClientResponse)
    (request : PlatformRequest) :
    List Char × Nat × List (List Char × List Char) :=
  match dispatch (translate_request request) with
  | .ok response => (response.content, response.status_code, response.headers)
  | .error _ =>
    (internal_error_body, 500, [("content-type".data, "application/json".data)])

/-- Claim C2: whenever the in-process dispatch raises, `api_function`
returns exactly the tuple
`(b'\x7b"detail": "Internal server error"\x7d', 500,
  \x7b"content-type": "application/json"\x7d)`. -/
theorem api_function_error_tuple {ε : Type}
    (dispatch : ClientRequest → Except ε ClientResponse)
    (request : PlatformRequest) (e : ε)
    (h : dispatch (translate_request request) = .error e) :
    api_function dispatch request =
      (internal_error_body, 500,
        [("content-type".data, "application/json".data)]) := by
  unfold api_function
  rw [h]

/-- Witness for Claim C2: a dispatch that always raises produces the
fixed 500 tuple on a concrete request. -/
theorem api_function_error_tuple_witness :
    api_function (fun _ => (.error () : Except Unit ClientResponse))
        ⟨"GET".data, "/health".data, [], [], none⟩ =
      (internal_error_body, 500,
        [("content-type".data, "application/json".data)]) :=
  api_function_error_tuple (fun _ => .error ())
    ⟨"GET".data, "/health".data, [], [], none⟩ () rfl

/-- Counterexample to Claim C7 as stated: for the platform request
`GET /hello` with query string `a=b?` (query parameters ARE present),
the adapter does not pass the path through unchanged — `rstrip("?")`
also removes the trailing question mark of the query string. -/
theorem translate_strips_qmark_despite_query :
    (⟨"GET".data, "/hello".data, "a=b?".data, [], none⟩ :
        PlatformRequest).query_string ≠ [] ∧
    (translate_request ⟨"GET".data, "/hello".data, "a=b?".data, [], none⟩).url ≠
      full_path ⟨"GET".data, "/hello".data, "a=b?".data, [], none⟩ ∧
    (translate_request ⟨"GET".data, "/hello".data, "a=b?".data, [], none⟩).url =
      "/hello?a=b".data := by
  refine ⟨by decide, by decide, by decide⟩

/-- Claim C7 amended: the adapter strips ALL trailing question marks
from the platform full path `path ++ "?" ++ query_string`. When no query
parameters are present and the path itself has no trailing question
mark, exactly the separator is removed and the bare path is passed
through; when the query string is non-empty and has no trailing question
mark, the full path — query string included — passes through unchanged;
and on successful dispatch the response body, status code and headers
are returned verbatim. -/
theorem api_function_translation_spec {ε : Type} :
    (∀ r : PlatformRequest, r.query_string = [] →
      pyRStripQmark r.path = r.path →
      (translate_request r).url = r.path) ∧
    (∀ r : PlatformRequest, r.query_string ≠ [] →
      pyRStripQmark r.query_string = r.query_string →
      (translate_request r).url = full_path r) ∧
    (∀ (dispatch : ClientRequest → Except ε ClientResponse)
        (request : PlatformRequest) (response : ClientResponse),
      dispatch (translate_request request) = .ok response →
      api_function dispatch request =
        (response.content, response.status_code, response.headers)) := by
  refine ⟨?_, ?_, ?_⟩
  · intro r hq hp
    have hp' : r.path.reverse.dropWhile (fun c => c == '?') = r.path.reverse := by
      have := congrArg List.reverse hp
      simpa [pyRStripQmark] using this
    show pyRStripQmark (full_path r) = r.path
    rw [full_path, hq]
    show ((r.path ++ ['?']).reverse.dropWhile (fun c => c == '?')).reverse = r.path
    rw [List.reverse_append]
    simp only [List.reverse_cons, List.reverse_nil, List.nil_append,
      List.singleton_append]
    rw [List.dropWhile_cons_of_pos (p := fun c => c == '?') (by rfl), hp',
      List.reverse_reverse]
  · intro r hq hkeep
    have h1 : r.query_string.reverse.dropWhile (fun c => c == '?') =
        r.query_string.reverse := by
      have := congrArg List.reverse hkeep
      simpa [pyRStripQmark] using this
    obtain ⟨h, t, hrev⟩ : ∃ h t, r.query_string.reverse = h :: t := by
      cases hrev2 : r.query_string.reverse with
      | nil =>
        exact absurd (by simpa using congrArg List.reverse hrev2) hq
      | cons h t => exact ⟨h, t, rfl⟩
    have hh : ¬ ((fun c => c == '?') h = true) := by
      rw [hrev] at h1
      have := List.dropWhile_eq_self_iff.mp h1 (by simp)
      simpa using this
    have hx : (full_path r).reverse = h :: (t ++ '?' :: r.path.reverse) := by
      rw [full_path, List.reverse_append, List.reverse_cons, hrev]
      simp
    show pyRStripQmark (full_path r) = full_path r
    rw [pyRStripQmark, hx,
      List.dropWhile_cons_of_neg (p := fun c => c == '?') hh, ← hx,
      List.reverse_reverse]
  · intro dispatch request response h
    unfold api_function
    rw [h]

/-- Witness for the amended Claim C7: separator stripped for a bare
`GET /hello`, full path preserved for query string `a=b`, and a
successful dispatch forwarded verbatim. -/
theorem api_function_translation_spec_witness :
    (translate_request ⟨"GET".data, "/hello".data, [], [], none⟩).url = "/hello".data ∧
    (translate_request ⟨"GET".data, "/hello".data, "a=b".data, [], none⟩).url =
      full_path ⟨"GET".data, "/hello".data, "a=b".data, [], none⟩ ∧
    api_function (fun _ => (.ok ⟨"ok".data, 200, []⟩ : Except Unit ClientResponse))
        ⟨"GET".data, "/hello".data, [], [], none⟩ = ("ok".data, 200, []) := by
  refine ⟨(@api_function_translation_spec Unit).1 _ rfl (by decide),
    (@api_function_translation_spec Unit).2.1 _ (by decide) (by decide),
    (@api_function_translation_spec Unit).2.2 _ _ ⟨"ok".data, 200, []⟩ rfl⟩
